import Mathlib

/-!
Verification of the image-classification and chat-response pipeline of the
hydroponic maize dashboard (`rag_model.py`).

The two functions `analyze_maize_image` and `get_rag_response` are embedded
shallowly: the external Azure vision call is abstracted as an
`Except String ImageAnalysis` value (either the service's response or the
message of the raised exception), Python dictionaries become association
lists of string keys to a `PyVal` value type, and Python's substring test
`needle in hay` becomes list-infix on the underlying character lists.
-/

namespace RagModel

/-- Python's `str.lower()` (ASCII range, as exercised by the dashboard). -/
def pyLower (s : String) : String := String.mk (s.data.map Char.toLower)

/-- Python's `needle in hay` substring test on strings. -/
def strIn (needle hay : String) : Bool := decide (needle.data <:+: hay.data)

/-- Python's `sep.join(parts)`. -/
def pyJoin (sep : String) : List String → String
  | [] => ""
  | [x] => x
  | x :: y :: xs => x ++ sep ++ pyJoin sep (y :: xs)

/-- A Python value as it appears in the result dictionaries of
`analyze_maize_image`: booleans, strings, the numeric confidence, and the
list of tag strings. -/
inductive PyVal where
  | bool (b : Bool)
  | str (s : String)
  | rat (q : ℚ)
  | strList (l : List String)
  deriving DecidableEq

/-- One tag returned by the vision service (`tag.name`). -/
structure Tag where
  name : String
  deriving DecidableEq

/-- One caption returned by the vision service (`caption.text`). -/
structure Caption where
  text : String
  deriving DecidableEq

/-- `analysis.description` of the vision response: the caption list. -/
structure ImageDescription where
  captions : List Caption
  deriving DecidableEq

/-- The vision service response consumed by `analyze_maize_image`:
`analysis.tags` and `analysis.description`. -/
structure ImageAnalysis where
  tags : List Tag
  description : ImageDescription
  deriving DecidableEq

/-- `disease_indicators['spotted']` from `rag_model.py`. -/
def disease_indicators_spotted : List String :=
  ["spot", "spots", "spotted", "lesion", "lesions", "brown", "yellow"]

/-- `disease_indicators['blighted']` from `rag_model.py`. -/
def disease_indicators_blighted : List String :=
  ["blight", "blighted", "wilted", "dying", "diseased", "disease", "infected"]

/-- The `any(indicator in text_to_check for indicator in ...)` generator. -/
def anyIndicator (indicators : List String) (text : String) : Bool :=
  indicators.any (fun indicator => strIn indicator text)

/-- The `if/elif/else` chain of `analyze_maize_image`: the pair of
`health_status` and `confidence` assigned by the branch taken. -/
def classifyText (text_to_check : String) : String × ℚ :=
  if anyIndicator disease_indicators_blighted text_to_check then
    ("Blighted", 99/100)
  else if anyIndicator disease_indicators_spotted text_to_check then
    ("Spotted", 99/100)
  else
    ("Healthy", 99/100)

/-- The local variable `tags` of `analyze_maize_image`:
`[tag.name.lower() for tag in analysis.tags]`. -/
def analysisTags (analysis : ImageAnalysis) : List String :=
  analysis.tags.map (fun tag => pyLower tag.name)

/-- The local variable `description` of `analyze_maize_image`:
`analysis.description.captions[0].text if analysis.description.captions
else ""`. -/
def descriptionOf (analysis : ImageAnalysis) : String :=
  match analysis.description.captions with
  | [] => ""
  | c :: _ => c.text

/-- The local variable `text_to_check` of `analyze_maize_image`:
`' '.join(tags + [description.lower()])`. -/
def text_to_check (analysis : ImageAnalysis) : String :=
  pyJoin " " (analysisTags analysis ++ [pyLower (descriptionOf analysis)])

/-- The `try` body of `analyze_maize_image`, given the vision response. -/
def analyzeBody (analysis : ImageAnalysis) : List (String × PyVal) :=
  let hc := classifyText (text_to_check analysis)
  [("success", PyVal.bool true),
   ("health_status", PyVal.str hc.1),
   ("confidence", PyVal.rat hc.2),
   ("description", PyVal.str ("Leaf appears to be " ++ pyLower hc.1)),
   ("tags", PyVal.strList (analysisTags analysis)),
   ("raw_description", PyVal.str (descriptionOf analysis))]

/-- `analyze_maize_image`: the image-encoding step and the external call are
abstracted as a `service` value that is either the vision response or the
message of the exception raised; the `except` clause turns the latter into
the failure dictionary. -/
def analyze_maize_image (service : Except String ImageAnalysis) :
    List (String × PyVal) :=
  match service with
  | Except.ok analysis => analyzeBody analysis
  | Except.error e => [("success", PyVal.bool false), ("error", PyVal.str e)]

/-- The `responses` dictionary of `get_rag_response`, in declaration order. -/
def responses : List (String × String) :=
  [("health", "The maize crop is showing good health metrics with optimal pH and humidity levels."),
   ("water", "Current water levels are at 85%, which is within the optimal range for maize growth."),
   ("nutrients", "Nutrient levels are at 72%. Consider adjusting nutrient delivery in the next 24 hours."),
   ("growth", "The maize is growing at an optimal rate based on current environmental conditions."),
   ("temperature", "Temperature is maintained at 23.5°C, which is ideal for maize cultivation.")]

/-- The default response of `get_rag_response`. -/
def defaultResponse : String :=
  "I can help you with information about maize health, water levels, nutrients, growth, and temperature. What would you like to know?"

/-- The apology string of the `except` clause of `get_rag_response`. -/
def apologyResponse : String :=
  "I apologize, but I'm having trouble processing your request."

/-- The `for key, response in responses.items(): if key in message: ...` loop
followed by the default return. -/
def lookupResponse (message : String) : List (String × String) → String
  | [] => defaultResponse
  | (key, response) :: rest =>
      if strIn key message then response else lookupResponse message rest

/-- The context bundle built by the dashboard callback: the three static
dictionaries, modelled as association lists. -/
structure ContextBundle where
  inventory : List (String × String)
  plant_health : List (String × String)
  system_status : List (String × String)

/-- The argument passed as `user_message`: the annotation says `str`, but
Python does not enforce it, so a non-string value can arrive. -/
inductive PyValue where
  | str (s : String)
  | nonStr
  deriving DecidableEq

/-- `user_message.lower()`: raises `AttributeError` on a non-string value. -/
def pyLowerValue : PyValue → Except String String
  | PyValue.str s => Except.ok (pyLower s)
  | PyValue.nonStr =>
      Except.error "AttributeError: object has no attribute lower"

/-- The `try` body of `get_rag_response`. -/
def ragBody (user_message : PyValue) (_context : Option ContextBundle) :
    Except String String :=
  match pyLowerValue user_message with
  | Except.error e => Except.error e
  | Except.ok message => Except.ok (lookupResponse message responses)

/-- `get_rag_response`: the body under `try`, with any exception replaced by
the fixed apology string. -/
def get_rag_response (user_message : PyValue)
    (context : Option ContextBundle) : String :=
  match ragBody user_message context with
  | Except.ok r => r
  | Except.error _ => apologyResponse

end RagModel

namespace RagModel

/-! ### Helper lemmas -/

/-- A nonempty, space-free needle is an infix of `s ++ [' ']` exactly when it
is an infix of `s`. -/
theorem infix_concat_space (needle s : List Char) (h1 : needle ≠ [])
    (h2 : ¬ ' ' ∈ needle) :
    (needle <:+: s ++ [' ']) ↔ needle <:+: s := by
  constructor
  · rintro ⟨p, q, hpq⟩
    rcases List.eq_nil_or_concat q with rfl | ⟨q', a, rfl⟩
    · rcases List.eq_nil_or_concat needle with rfl | ⟨n', c, rfl⟩
      · exact absurd rfl h1
      · simp only [List.concat_eq_append, List.append_nil,
          ← List.append_assoc] at hpq
        have hc := (List.append_inj' hpq rfl).2
        simp only [List.cons.injEq] at hc
        exact absurd (by simp [hc.1]) h2
    · simp only [List.concat_eq_append, ← List.append_assoc] at hpq
      have := (List.append_inj' hpq rfl).1
      exact ⟨p, q', this⟩
  · rintro ⟨p, q, hpq⟩
    exact ⟨p, q ++ [' '], by rw [← hpq]; simp [List.append_assoc]⟩

/-- Appending a trailing space to the haystack does not change the substring
test for a nonempty, space-free keyword. -/
theorem strIn_append_space (k s : String) (h1 : k.data ≠ [])
    (h2 : ¬ ' ' ∈ k.data) :
    strIn k (s ++ " ") = strIn k s := by
  unfold strIn
  rw [show (s ++ " ").data = s.data ++ [' '] from rfl]
  exact decide_eq_decide.mpr (infix_concat_space k.data s.data h1 h2)

/-- A trailing space does not change the keyword scan, for lists of nonempty,
space-free keywords. -/
theorem anyIndicator_append_space (s : String) :
    ∀ l : List String, (∀ k ∈ l, k.data ≠ [] ∧ ¬ ' ' ∈ k.data) →
      anyIndicator l (s ++ " ") = anyIndicator l s
  | [], _ => rfl
  | k :: rest, h => by
      have hk := h k (List.mem_cons_self k rest)
      have ih := anyIndicator_append_space s rest
        (fun x hx => h x (List.mem_cons_of_mem k hx))
      simp only [anyIndicator, List.any_cons] at ih ⊢
      rw [strIn_append_space k s hk.1 hk.2, ih]

/-- A trailing space does not change the classification outcome: every
disease keyword is nonempty and space-free. -/
theorem classifyText_append_space (s : String) :
    classifyText (s ++ " ") = classifyText s := by
  unfold classifyText
  rw [anyIndicator_append_space s disease_indicators_blighted (by decide),
      anyIndicator_append_space s disease_indicators_spotted (by decide)]

/-- Joining `xs ++ [""]` with spaces equals joining `xs` and appending one
space, for nonempty `xs`. -/
theorem pyJoin_concat_empty :
    ∀ (x : String) (xs : List String),
      pyJoin " " ((x :: xs) ++ [""]) = pyJoin " " (x :: xs) ++ " "
  | x, [] => by simp [pyJoin]
  | x, y :: ys => by
      have ih := pyJoin_concat_empty y ys
      simp only [List.cons_append] at ih ⊢
      show x ++ " " ++ pyJoin " " (y :: (ys ++ [""])) =
        x ++ " " ++ pyJoin " " (y :: ys) ++ " "
      rw [ih]
      rw [← String.append_assoc]

/-! ### Claim theorems -/

/-- Claim C1, counterexample: the input "does water affect health" contains
the substring "water", yet `get_rag_response` does not return the water
sentence (the `responses` dictionary is iterated in declaration order and
"health" precedes "water", so the health sentence wins). -/
theorem c1_water_counterexample :
    strIn "water" (pyLower "does water affect health") = true ∧
    get_rag_response (PyValue.str "does water affect health") none ≠
      "Current water levels are at 85%, which is within the optimal range for maize growth." := by
  constructor
  · decide
  · decide

/-- Claim C1 (amended): for every input whose lowercased form contains
"water" but not "health", `get_rag_response` returns the fixed water
sentence, regardless of which of the later keywords ("nutrients", "growth",
"temperature") are also present. -/
theorem c1_water_response (m : String) (c : Option ContextBundle)
    (hw : strIn "water" (pyLower m) = true)
    (hh : strIn "health" (pyLower m) = false) :
    get_rag_response (PyValue.str m) c =
      "Current water levels are at 85%, which is within the optimal range for maize growth." := by
  simp [get_rag_response, ragBody, pyLowerValue, lookupResponse, responses,
    hw, hh]

/-- Claim C1, witness: "what about water and nutrients" returns the water
sentence, not the nutrients one. -/
theorem c1_water_response_witness :
    get_rag_response (PyValue.str "what about water and nutrients") none =
      "Current water levels are at 85%, which is within the optimal range for maize growth." :=
  c1_water_response "what about water and nutrients" none (by decide)
    (by decide)

/-- Claim C2: whenever the aggregated lowercased tag-and-caption text
contains a blight keyword, `analyze_maize_image` labels the image
"Blighted" — the blight branch is checked first, so this holds even when
spot keywords are also present, irrespective of their order in the text. -/
theorem c2_blight_precedence (analysis : ImageAnalysis)
    (hb : anyIndicator disease_indicators_blighted (text_to_check analysis)
        = true) :
    (analyze_maize_image (Except.ok analysis)).lookup "health_status" =
      some (PyVal.str "Blighted") := by
  simp [analyze_maize_image, analyzeBody, classifyText, hb, List.lookup]

/-- Claim C2, witness: an image tagged "Blight" and "Brown Spots" (a blight
keyword together with two spot keywords) is labelled "Blighted". -/
theorem c2_blight_precedence_witness :
    (analyze_maize_image
        (Except.ok ⟨[⟨"Blight"⟩, ⟨"Brown Spots"⟩], ⟨[]⟩⟩)).lookup
        "health_status" = some (PyVal.str "Blighted") :=
  c2_blight_precedence ⟨[⟨"Blight"⟩, ⟨"Brown Spots"⟩], ⟨[]⟩⟩ (by decide)

/-- Claim C3: every successful classification carries `success = True` and
`confidence = 0.99` exactly, whichever of the three label branches is taken
and however many keywords matched; a failed call carries no confidence
field at all. -/
theorem c3_confidence_constant :
    (∀ analysis : ImageAnalysis,
      (analyze_maize_image (Except.ok analysis)).lookup "success" =
          some (PyVal.bool true) ∧
      (analyze_maize_image (Except.ok analysis)).lookup "confidence" =
          some (PyVal.rat (99/100))) ∧
    (∀ e : String,
      (analyze_maize_image (Except.error e)).lookup "confidence" = none) := by
  constructor
  · intro analysis
    simp only [analyze_maize_image]
    unfold analyzeBody classifyText
    split <;> (try split) <;> simp [List.lookup]
  · intro e
    simp [analyze_maize_image, List.lookup]

/-- Claim C4: when the encoding step or the vision call raises, the
`except` clause of `analyze_maize_image` returns the dictionary
`{success: False, error: message}` (the function is total in the embedding:
the exception is never propagated), and that failure dictionary carries no
health_status, confidence, description, or tags fields. -/
theorem c4_failure_result_shape (e : String) :
    analyze_maize_image (Except.error e) =
      [("success", PyVal.bool false), ("error", PyVal.str e)] ∧
    (analyze_maize_image (Except.error e)).lookup "health_status" = none ∧
    (analyze_maize_image (Except.error e)).lookup "confidence" = none ∧
    (analyze_maize_image (Except.error e)).lookup "description" = none ∧
    (analyze_maize_image (Except.error e)).lookup "tags" = none := by
  refine ⟨rfl, ?_, ?_, ?_, ?_⟩ <;> simp [analyze_maize_image, List.lookup]

/-- Claim C5: the context argument of `get_rag_response` is dead — for any
message and any two context bundles (including `none`), the returned string
is identical. -/
theorem c5_context_noninterference (m : PyValue)
    (c1 c2 : Option ContextBundle) :
    get_rag_response m c1 = get_rag_response m c2 := rfl

/-- Claim C6: when the aggregated text contains no blight keyword and no
spot keyword, `analyze_maize_image` returns success with health status
"Healthy" and confidence exactly 0.99. -/
theorem c6_healthy_default (analysis : ImageAnalysis)
    (hb : anyIndicator disease_indicators_blighted (text_to_check analysis)
        = false)
    (hs : anyIndicator disease_indicators_spotted (text_to_check analysis)
        = false) :
    (analyze_maize_image (Except.ok analysis)).lookup "success" =
        some (PyVal.bool true) ∧
    (analyze_maize_image (Except.ok analysis)).lookup "health_status" =
        some (PyVal.str "Healthy") ∧
    (analyze_maize_image (Except.ok analysis)).lookup "confidence" =
        some (PyVal.rat (99/100)) := by
  simp [analyze_maize_image, analyzeBody, classifyText, hb, hs, List.lookup]

/-- Claim C6, witness: an image tagged "corn" and "leaf" with caption
"a green plant" matches no disease keyword and is labelled "Healthy" with
confidence 0.99. -/
theorem c6_healthy_default_witness :
    (analyze_maize_image
        (Except.ok ⟨[⟨"corn"⟩, ⟨"leaf"⟩], ⟨[⟨"a green plant"⟩]⟩⟩)).lookup
        "success" = some (PyVal.bool true) ∧
    (analyze_maize_image
        (Except.ok ⟨[⟨"corn"⟩, ⟨"leaf"⟩], ⟨[⟨"a green plant"⟩]⟩⟩)).lookup
        "health_status" = some (PyVal.str "Healthy") ∧
    (analyze_maize_image
        (Except.ok ⟨[⟨"corn"⟩, ⟨"leaf"⟩], ⟨[⟨"a green plant"⟩]⟩⟩)).lookup
        "confidence" = some (PyVal.rat (99/100)) :=
  c6_healthy_default ⟨[⟨"corn"⟩, ⟨"leaf"⟩], ⟨[⟨"a green plant"⟩]⟩⟩
    (by decide) (by decide)

/-- Claim C7: `get_rag_response` is total (it returns a string on every
input by its type), and whenever its `try` body raises — e.g. on a
non-string message, where `.lower()` raises `AttributeError` — the result
is the fixed apology string. -/
theorem c7_exception_apology (v : PyValue) (c : Option ContextBundle)
    (e : String) (h : ragBody v c = Except.error e) :
    get_rag_response v c = apologyResponse := by
  simp [get_rag_response, h]

/-- Claim C7, witness: a non-string message makes the body raise, and the
apology string is returned. -/
theorem c7_exception_apology_witness :
    get_rag_response PyValue.nonStr none = apologyResponse :=
  c7_exception_apology PyValue.nonStr none
    "AttributeError: object has no attribute lower" rfl

/-- Claim C8: when the lowercased input contains none of the five keys of
the `responses` dictionary, `get_rag_response` returns the fixed fallback
prompt listing the supported topics. -/
theorem c8_fallback_response (m : String) (c : Option ContextBundle)
    (h1 : strIn "health" (pyLower m) = false)
    (h2 : strIn "water" (pyLower m) = false)
    (h3 : strIn "nutrients" (pyLower m) = false)
    (h4 : strIn "growth" (pyLower m) = false)
    (h5 : strIn "temperature" (pyLower m) = false) :
    get_rag_response (PyValue.str m) c = defaultResponse := by
  simp [get_rag_response, ragBody, pyLowerValue, lookupResponse, responses,
    h1, h2, h3, h4, h5]

/-- Claim C8, witness: "hello there" contains no keyword and receives the
fallback prompt. -/
theorem c8_fallback_response_witness :
    get_rag_response (PyValue.str "hello there") none = defaultResponse :=
  c8_fallback_response "hello there" none (by decide) (by decide) (by decide)
    (by decide) (by decide)

/-- Claim C9: `analyze_maize_image` is deterministic given the external
service's behaviour — two calls for which the service produces identical
tags and captions (or identical errors) produce the same full result
dictionary, hence the same health label. -/
theorem c9_deterministic (s1 s2 : Except String ImageAnalysis)
    (h : s1 = s2) :
    analyze_maize_image s1 = analyze_maize_image s2 := by rw [h]

/-- Claim C9, witness: two calls on the service response tagging "leaf"
with no caption agree. -/
theorem c9_deterministic_witness :
    analyze_maize_image (Except.ok ⟨[⟨"leaf"⟩], ⟨[]⟩⟩) =
      analyze_maize_image (Except.ok ⟨[⟨"leaf"⟩], ⟨[]⟩⟩) :=
  c9_deterministic (Except.ok ⟨[⟨"leaf"⟩], ⟨[]⟩⟩)
    (Except.ok ⟨[⟨"leaf"⟩], ⟨[]⟩⟩) rfl

/-- Claim C10: with an empty caption list the guarded conditional takes the
`""` branch, so `analyze_maize_image` does not fail: it succeeds with
`raw_description = ""`, and the health label is exactly the one obtained by
classifying the joined lowercased tags alone (the appended empty caption
contributes only a trailing space, which cannot complete any keyword). -/
theorem c10_empty_captions (tags : List Tag) :
    (analyze_maize_image (Except.ok ⟨tags, ⟨[]⟩⟩)).lookup "raw_description" =
      some (PyVal.str "") ∧
    (analyze_maize_image (Except.ok ⟨tags, ⟨[]⟩⟩)).lookup "success" =
      some (PyVal.bool true) ∧
    (analyze_maize_image (Except.ok ⟨tags, ⟨[]⟩⟩)).lookup "health_status" =
      some (PyVal.str
        (classifyText (pyJoin " " (tags.map fun tag => pyLower tag.name))).1) := by
  have hcls : classifyText (text_to_check ⟨tags, ⟨[]⟩⟩) =
      classifyText (pyJoin " " (tags.map fun tag => pyLower tag.name)) := by
    rw [show text_to_check ⟨tags, ⟨[]⟩⟩ =
      pyJoin " " ((tags.map fun tag => pyLower tag.name) ++ [""]) from rfl]
    cases tags with
    | nil => rfl
    | cons t ts =>
        rw [show (t :: ts).map (fun tag => pyLower tag.name) =
              pyLower t.name :: ts.map (fun tag => pyLower tag.name) from rfl,
            pyJoin_concat_empty, classifyText_append_space]
  refine ⟨?_, ?_, ?_⟩ <;>
    simp [analyze_maize_image, analyzeBody, hcls, List.lookup, descriptionOf]

end RagModel
